import Mathlib

/-!
Verification of the metadata/request-body synthesis layer of DomoPy
(`src/domopy/dataset.py`): the schema translator
(`create_meta_string_from_dataframe`, `create_meta_string_from_user_declared`)
and the PDP request builder (`create_pdp_req`).

Python dicts are modelled as association lists in insertion order; a Python
`set` of strings is modelled by `List.dedup` (iteration order of a Python set
is implementation-defined, so theorems only rely on membership). A raised
`ValueError` is modelled as the `Except.error` branch carrying the offending
type string.
-/

namespace DomoPy

/-- One entry of the `schema.columns` list: `{"name": ..., "type": ...}`. -/
structure ColumnDescriptor where
  name : String
  type : String
deriving DecidableEq, Repr

/-- The `schema` object: `{"columns": [...]}` (its only key). -/
structure Schema where
  columns : List ColumnDescriptor
deriving DecidableEq, Repr

/-- The dataset metadata descriptor built by both derivation paths:
exactly the keys `name`, `description`, `rows`, `schema`. -/
structure Descriptor where
  name : String
  description : String
  rows : Nat
  schema : Schema
deriving DecidableEq, Repr

/-- The fixed `df_domo_types` dict literal in
`create_meta_string_from_dataframe`, as an association list. -/
def df_domo_types : List (String × String) :=
  [("object", "STRING"), ("int64", "LONG"), ("int32", "LONG"),
   ("float64", "DOUBLE"), ("float32", "DOUBLE"), ("float", "DOUBLE"),
   ("datetime64[ns]", "DATE"), ("datetime64[ns, tz]", "DATETIME"),
   ("bool", "STRING")]

/-- `df_domo_types.get(str(dtype), "STRING")`: dict lookup with default. -/
def resolveDtype (dtype : String) : String :=
  match df_domo_types.lookup dtype with
  | some t => t
  | none => "STRING"

/-- A pandas dataframe, as far as this code observes it: an ordered list of
columns, each with a name and the string form of its dtype. -/
structure DataFrame where
  cols : List (String × String)
deriving DecidableEq, Repr

/-- `create_meta_string_from_dataframe(ds_name, ds_descr, dataframe)`. -/
def create_meta_string_from_dataframe (ds_name ds_descr : String)
    (dataframe : DataFrame) : Descriptor :=
  { name := ds_name
    description := ds_descr
    rows := 0
    schema := ⟨dataframe.cols.map (fun c => ⟨c.1, resolveDtype c.2⟩)⟩ }

/-- The `valid_domo_types` list in `create_meta_string_from_user_declared`. -/
def valid_domo_types : List String :=
  ["STRING", "DOUBLE", "DATE", "DATETIME", "LONG"]

/-- `create_meta_string_from_user_declared(ds_name, ds_descr, col_types_dict)`.
The `set(col_types_dict.values())` is modelled by `dedup` of the values list;
the loop raises `ValueError(dtype)` on the first invalid member, modelled by
`find?` returning `Except.error` with the offending type string. -/
def create_meta_string_from_user_declared (ds_name ds_descr : String)
    (col_types_dict : List (String × String)) : Except String Descriptor :=
  let types_for_dataset := (col_types_dict.map Prod.snd).dedup
  match types_for_dataset.find? (fun dtype => !(valid_domo_types.contains dtype)) with
  | some dtype => .error dtype
  | none =>
      .ok { name := ds_name
            description := ds_descr
            rows := 0
            schema := ⟨col_types_dict.map (fun kv => ⟨kv.1, kv.2⟩)⟩ }

/-- One PDP filter dict `{"column": ..., "values": ..., "operator": ...}`. -/
structure PdpFilter where
  column : String
  values : List String
  operator : String
deriving DecidableEq, Repr

/-- The PDP request body built by `create_pdp_req`: the keys `name`,
`filters`, `users` are always present; the `groups` key is optional
(`none` models its absence from the dict). -/
structure PdpReq where
  name : String
  filters : List PdpFilter
  users : List Int
  groups : Option (List Int)
deriving DecidableEq, Repr

/-- `create_pdp_req(pdp_name, filters, groups=[], users=[])`: the `groups`
key is added only when `groups != []`. -/
def create_pdp_req (pdp_name : String) (filters : List PdpFilter)
    (groups : List Int := []) (users : List Int := []) : PdpReq :=
  { name := pdp_name
    filters := filters
    users := users
    groups := if groups ≠ [] then some groups else none }

/-! ### Theorems about the claims -/

/-- C1: any declared mapping containing a type string outside
`{STRING, DOUBLE, DATE, DATETIME, LONG}` makes
`create_meta_string_from_user_declared` fail with an error carrying an
offending value from the mapping, returning no descriptor; in particular a
mapping declaring type "BOOLEAN" fails with the error value "BOOLEAN". -/
theorem derive_from_declared_rejects_invalid_type (n d : String)
    (m : List (String × String)) (h : ∃ p ∈ m, p.2 ∉ valid_domo_types) :
    (∃ bad, create_meta_string_from_user_declared n d m = .error bad ∧
      bad ∉ valid_domo_types ∧ bad ∈ m.map Prod.snd) ∧
    create_meta_string_from_user_declared "Leonhard Euler Party"
      "Mathematician Guest List" [("Attending", "BOOLEAN")] = .error "BOOLEAN" := by
  constructor
  · obtain ⟨p, hp, hbad⟩ := h
    cases hfind : ((m.map Prod.snd).dedup.find?
        (fun dtype => !(valid_domo_types.contains dtype))) with
    | none =>
        exfalso
        rw [List.find?_eq_none] at hfind
        have hmem : p.2 ∈ (m.map Prod.snd).dedup := by
          simp only [List.mem_dedup, List.mem_map]
          exact ⟨p, hp, rfl⟩
        have := hfind p.2 hmem
        simp [List.contains, List.elem_iff] at this
        exact hbad this
    | some bad =>
        refine ⟨bad, ?_, ?_, ?_⟩
        · simp only [create_meta_string_from_user_declared, hfind]
        · have := List.find?_some hfind
          simpa [List.contains, List.elem_iff] using this
        · have := List.mem_of_find?_eq_some hfind
          simpa [List.mem_dedup] using this
  · rfl

/-- Witness for C1: the "Attending" → "BOOLEAN" mapping satisfies the
hypothesis, and the rejection theorem applies to it. -/
theorem derive_from_declared_rejects_invalid_type_witness :
    (∃ p ∈ [("Attending", "BOOLEAN")], p.2 ∉ valid_domo_types) ∧
    ((∃ bad, create_meta_string_from_user_declared "Leonhard Euler Party"
        "Mathematician Guest List" [("Attending", "BOOLEAN")] = .error bad ∧
        bad ∉ valid_domo_types ∧ bad ∈ [("Attending", "BOOLEAN")].map Prod.snd) ∧
      create_meta_string_from_user_declared "Leonhard Euler Party"
        "Mathematician Guest List" [("Attending", "BOOLEAN")] = .error "BOOLEAN") :=
  ⟨by decide, derive_from_declared_rejects_invalid_type "Leonhard Euler Party"
    "Mathematician Guest List" [("Attending", "BOOLEAN")] (by decide)⟩

/-- C2: the Leonhard Euler Party scenario returns exactly the expected
descriptor with rows 0 and the two STRING columns in declaration order. -/
theorem derive_from_declared_euler_party :
    create_meta_string_from_user_declared "Leonhard Euler Party"
        "Mathematician Guest List" [("Friend", "STRING"), ("Attending", "STRING")] =
      .ok ⟨"Leonhard Euler Party", "Mathematician Guest List", 0,
        ⟨[⟨"Friend", "STRING"⟩, ⟨"Attending", "STRING"⟩]⟩⟩ := rfl

/-- C3: every declared mapping whose type strings all lie in the valid
enumeration succeeds, producing the given name and description, rows 0, and
one column per entry in declaration order. -/
theorem derive_from_declared_valid_types_succeed (n d : String)
    (m : List (String × String)) (h : ∀ p ∈ m, p.2 ∈ valid_domo_types) :
    create_meta_string_from_user_declared n d m =
      .ok ⟨n, d, 0, ⟨m.map (fun kv => ⟨kv.1, kv.2⟩)⟩⟩ := by
  have hnone : ((m.map Prod.snd).dedup.find?
      (fun dtype => !(valid_domo_types.contains dtype))) = none := by
    rw [List.find?_eq_none]
    intro x hx
    simp only [List.mem_dedup, List.mem_map] at hx
    obtain ⟨p, hp, rfl⟩ := hx
    simp [List.contains, List.elem_iff, h p hp]
  simp only [create_meta_string_from_user_declared, hnone]

/-- Witness for C3: the all-STRING Euler Party mapping satisfies the
hypothesis and the success theorem applies to it. -/
theorem derive_from_declared_valid_types_succeed_witness :
    (∀ p ∈ [("Friend", "STRING"), ("Attending", "STRING")], p.2 ∈ valid_domo_types) ∧
    create_meta_string_from_user_declared "Leonhard Euler Party"
        "Mathematician Guest List" [("Friend", "STRING"), ("Attending", "STRING")] =
      .ok ⟨"Leonhard Euler Party", "Mathematician Guest List", 0,
        ⟨[("Friend", "STRING"), ("Attending", "STRING")].map (fun kv => ⟨kv.1, kv.2⟩)⟩⟩ :=
  ⟨by decide, derive_from_declared_valid_types_succeed "Leonhard Euler Party"
    "Mathematician Guest List" [("Friend", "STRING"), ("Attending", "STRING")] (by decide)⟩

/-- C4: `create_meta_string_from_dataframe` produces one column per source
column and preserves the source column names in their native order. -/
theorem derive_from_table_preserves_column_order (n d : String) (df : DataFrame) :
    (create_meta_string_from_dataframe n d df).schema.columns.length = df.cols.length ∧
    ∀ i (h1 : i < (create_meta_string_from_dataframe n d df).schema.columns.length)
      (h2 : i < df.cols.length),
      ((create_meta_string_from_dataframe n d df).schema.columns.get ⟨i, h1⟩).name =
        (df.cols.get ⟨i, h2⟩).1 := by
  constructor
  · simp [create_meta_string_from_dataframe]
  · intro i h1 h2
    simp [create_meta_string_from_dataframe, List.getElem_map]

/-- Witness for C4: a two-column dataframe, checked at index 0. -/
theorem derive_from_table_preserves_column_order_witness :
    (create_meta_string_from_dataframe "N" "D"
        ⟨[("a", "int64"), ("b", "object")]⟩).schema.columns.length =
      ([("a", "int64"), ("b", "object")] : List (String × String)).length ∧
    ((create_meta_string_from_dataframe "N" "D"
        ⟨[("a", "int64"), ("b", "object")]⟩).schema.columns.get ⟨0, by decide⟩).name =
      (([("a", "int64"), ("b", "object")] : List (String × String)).get ⟨0, by decide⟩).1 :=
  ⟨(derive_from_table_preserves_column_order "N" "D" ⟨[("a", "int64"), ("b", "object")]⟩).1,
   (derive_from_table_preserves_column_order "N" "D" ⟨[("a", "int64"), ("b", "object")]⟩).2
     0 (by decide) (by decide)⟩

/-- C5: every dtype present in the fixed mapping table resolves to the table's
value, every absent dtype resolves to "STRING", and every output column of
the dataframe path is built through this total resolution (no failure path). -/
theorem derive_from_table_dtype_resolution :
    (∀ dt v, (dt, v) ∈ df_domo_types → resolveDtype dt = v) ∧
    (∀ dt, dt ∉ df_domo_types.map Prod.fst → resolveDtype dt = "STRING") ∧
    (∀ n d df, (create_meta_string_from_dataframe n d df).schema.columns =
      df.cols.map (fun c => ⟨c.1, resolveDtype c.2⟩)) := by
  refine ⟨?_, ?_, fun n d df => rfl⟩
  · intro dt v h
    simp only [df_domo_types] at h
    fin_cases h <;> rfl
  · intro dt h
    simp only [df_domo_types, List.map_cons, List.map_nil, List.mem_cons,
      List.not_mem_nil, or_false] at h
    push_neg at h
    obtain ⟨h1, h2, h3, h4, h5, h6, h7, h8, h9⟩ := h
    have e : ∀ (s : String), dt ≠ s → (dt == s) = false := fun s hs => by simp [hs]
    simp [resolveDtype, df_domo_types, List.lookup, e _ h1, e _ h2, e _ h3,
      e _ h4, e _ h5, e _ h6, e _ h7, e _ h8, e _ h9]

/-- Witness for C5: a mapped dtype ("int64" → "LONG") and an unmapped one
("categorical" → "STRING"). -/
theorem derive_from_table_dtype_resolution_witness :
    (("int64", "LONG") ∈ df_domo_types ∧ resolveDtype "int64" = "LONG") ∧
    ("categorical" ∉ df_domo_types.map Prod.fst ∧ resolveDtype "categorical" = "STRING") :=
  ⟨⟨by decide, derive_from_table_dtype_resolution.1 "int64" "LONG" (by decide)⟩,
   ⟨by decide, derive_from_table_dtype_resolution.2.1 "categorical" (by decide)⟩⟩

/-- C6: every descriptor produced by either derivation path carries the given
name and description, rows equal to 0, and a schema holding exactly the
ordered column list (the `Descriptor` and `Schema` structures fix the field
sets to name/description/rows/schema and columns respectively). -/
theorem descriptor_shape_invariant :
    (∀ n d df, (create_meta_string_from_dataframe n d df).rows = 0 ∧
      (create_meta_string_from_dataframe n d df).name = n ∧
      (create_meta_string_from_dataframe n d df).description = d) ∧
    (∀ n d m desc, create_meta_string_from_user_declared n d m = .ok desc →
      desc.rows = 0 ∧ desc.name = n ∧ desc.description = d ∧
      desc.schema = ⟨m.map (fun kv => ⟨kv.1, kv.2⟩)⟩) := by
  refine ⟨fun n d df => ⟨rfl, rfl, rfl⟩, ?_⟩
  intro n d m desc h
  simp only [create_meta_string_from_user_declared] at h
  cases hfind : ((m.map Prod.snd).dedup.find?
      (fun dtype => !(valid_domo_types.contains dtype))) with
  | some bad => rw [hfind] at h; exact absurd h (by simp)
  | none =>
      rw [hfind] at h
      cases h
      exact ⟨rfl, rfl, rfl, rfl⟩

/-- Witness for C6: the declared path at a one-column mapping produces an
`ok` descriptor, and the invariant applies to it. -/
theorem descriptor_shape_invariant_witness :
    create_meta_string_from_user_declared "N" "D" [("a", "STRING")] =
      .ok ⟨"N", "D", 0, ⟨[⟨"a", "STRING"⟩]⟩⟩ ∧
    ((⟨"N", "D", 0, ⟨[⟨"a", "STRING"⟩]⟩⟩ : Descriptor).rows = 0 ∧
      (⟨"N", "D", 0, ⟨[⟨"a", "STRING"⟩]⟩⟩ : Descriptor).name = "N" ∧
      (⟨"N", "D", 0, ⟨[⟨"a", "STRING"⟩]⟩⟩ : Descriptor).description = "D" ∧
      (⟨"N", "D", 0, ⟨[⟨"a", "STRING"⟩]⟩⟩ : Descriptor).schema =
        ⟨[("a", "STRING")].map (fun kv => ⟨kv.1, kv.2⟩)⟩) :=
  ⟨rfl, descriptor_shape_invariant.2 "N" "D" [("a", "STRING")]
    ⟨"N", "D", 0, ⟨[⟨"a", "STRING"⟩]⟩⟩ rfl⟩

/-- C7: the "Only Show Attendees" request body has no groups key; in general
empty groups are omitted from the request and non-empty groups are
included as given. -/
theorem create_pdp_req_groups_policy (n : String) (f : List PdpFilter)
    (g u : List Int) (h : g ≠ []) :
    create_pdp_req "Only Show Attendees" [⟨"Attending", ["TRUE"], "EQUALS"⟩] [] [27] =
      ⟨"Only Show Attendees", [⟨"Attending", ["TRUE"], "EQUALS"⟩], [27], none⟩ ∧
    (create_pdp_req n f [] u).groups = none ∧
    (create_pdp_req n f g u).groups = some g := by
  refine ⟨rfl, rfl, ?_⟩
  simp [create_pdp_req, h]

/-- Witness for C7: the non-empty group list [5] satisfies the hypothesis
and the groups policy applies. -/
theorem create_pdp_req_groups_policy_witness :
    (([5] : List Int) ≠ []) ∧
    (create_pdp_req "Only Show Attendees" [⟨"Attending", ["TRUE"], "EQUALS"⟩] [] [27] =
      ⟨"Only Show Attendees", [⟨"Attending", ["TRUE"], "EQUALS"⟩], [27], none⟩ ∧
     (create_pdp_req "P" [] [] [27]).groups = none ∧
     (create_pdp_req "P" [] [5] [27]).groups = some [5]) :=
  ⟨by decide, create_pdp_req_groups_policy "P" [] [5] [27] (by decide)⟩

/-- C8: `create_meta_string_from_user_declared` is deterministic — equal
arguments give equal outcomes, on the success path and the error path alike
(the embedding is a pure function of its arguments, matching the source,
which only reads its inputs and builds fresh dicts). -/
theorem derive_from_declared_deterministic (n1 n2 d1 d2 : String)
    (m1 m2 : List (String × String))
    (hn : n1 = n2) (hd : d1 = d2) (hm : m1 = m2) :
    create_meta_string_from_user_declared n1 d1 m1 =
      create_meta_string_from_user_declared n2 d2 m2 := by
  subst hn; subst hd; subst hm; rfl

/-- Witness for C8: two syntactically equal calls agree. -/
theorem derive_from_declared_deterministic_witness :
    ("A" : String) = "A" ∧ ("B" : String) = "B" ∧
    ([("c", "LONG")] : List (String × String)) = [("c", "LONG")] ∧
    create_meta_string_from_user_declared "A" "B" [("c", "LONG")] =
      create_meta_string_from_user_declared "A" "B" [("c", "LONG")] :=
  ⟨rfl, rfl, rfl,
   derive_from_declared_deterministic "A" "A" "B" "B" [("c", "LONG")] [("c", "LONG")]
     rfl rfl rfl⟩

/-- C9: every PDP request body carries the users key (even when the users
list is empty it is included as []), the filters value is embedded
unchanged with no validation, and the groups key is present exactly when
the groups argument is non-empty. -/
theorem create_pdp_req_users_always_present (n : String) (f : List PdpFilter)
    (g u : List Int) :
    (create_pdp_req n f g u).users = u ∧
    (create_pdp_req n f g []).users = [] ∧
    (create_pdp_req n f g u).filters = f ∧
    ((create_pdp_req n f g u).groups = none ↔ g = []) := by
  refine ⟨rfl, rfl, rfl, ?_⟩
  by_cases hg : g = [] <;> simp [create_pdp_req, hg]

/-- C10: the declared path on an empty mapping succeeds, returning a
descriptor with rows 0 and an empty columns list. -/
theorem derive_from_declared_empty_mapping (n d : String) :
    create_meta_string_from_user_declared n d [] = .ok ⟨n, d, 0, ⟨[]⟩⟩ := rfl

end DomoPy
